import Mathlib

set_option maxRecDepth 4000

/-!
Shallow embedding of the Pokemon_Novel story-generation engine
(src/core/cot_engine.py, src/core/llm_services.py,
src/core/prompt_templates.py, src/core/pokemon_knowledge_base.py).

Python strings are modelled as Lean `String` (sequences of unicode code
points, matching Python `str` indexing); `str.find`, `str.strip`,
`str.startswith`, slicing and `in` are given explicit executable models.
-/

namespace PokemonNovel

/-- Python whitespace test used by `str.strip()`: space, tab, newline,
carriage return, vertical tab, form feed. -/
def isPySpace (c : Char) : Bool :=
  c = ' ' || c = '\t' || c = '\n' || c = '\x0d' || c = '\x0b' || c = '\x0c'

/-- `s.strip()`: remove leading and trailing whitespace. -/
def pyStrip (s : String) : String :=
  String.mk (((s.toList.dropWhile isPySpace).reverse.dropWhile isPySpace).reverse)

/-- `s.startswith(p)` on code-point lists (first argument the string,
second the pattern). -/
def charsBegin : List Char → List Char → Bool
  | _, [] => true
  | [], _ :: _ => false
  | c :: cs, p :: ps => c = p && charsBegin cs ps

/-- Index of the first occurrence of `pat` in the list, if any
(the scan-from-the-left core of `str.find`). -/
def charsFind : List Char → List Char → Option Nat
  | [], pat => if charsBegin [] pat then some 0 else none
  | c :: rest, pat =>
    if charsBegin (c :: rest) pat then some 0
    else (charsFind rest pat).map (· + 1)

/-- `haystack.find(needle)`: lowest index of occurrence, `-1` if absent. -/
def pyFind (s sub : String) : Int :=
  match charsFind s.toList sub.toList with
  | some n => (n : Int)
  | none => -1

/-- `needle in haystack` (substring membership test). -/
def pyContains (s sub : String) : Bool :=
  (charsFind s.toList sub.toList).isSome

/-- `s[a:]`. -/
def pyDrop (s : String) (a : Nat) : String :=
  String.mk (s.toList.drop a)

/-- `s[a:b]` for `0 ≤ a`, `0 ≤ b` (empty when `b ≤ a`, as in Python). -/
def pySlice (s : String) (a b : Nat) : String :=
  String.mk ((s.toList.drop a).take (b - a))

/-- `s.startswith(p)`. -/
def pyStarts (s p : String) : Bool :=
  charsBegin s.toList p.toList

/-- `needle` occurs as a contiguous substring of `hay`. -/
def containsSub (hay needle : String) : Prop :=
  ∃ l r, hay = l ++ (needle ++ r)

/-! ## The reviewer-output parser (src/core/cot_engine.py lines 15-53) -/

/-- The feedback marker literal `評估回饋:` (half-width colon), cot_engine.py line 17. -/
def feedback_marker : String := "評估回饋:"

/-- The plan revision marker literal `修訂後故事大綱:`, cot_engine.py line 18. -/
def plan_marker : String := "修訂後故事大綱:"

/-- The full-story revision marker literal `修訂後完整故事:`, cot_engine.py line 20. -/
def story_marker : String := "修訂後完整故事:"

/-- Sentinel phrase `原故事大綱已達標`, cot_engine.py line 36. -/
def sentinel_plan : String := "原故事大綱已達標"

/-- Sentinel phrase `原故完整事已達標` (the source's spelling), cot_engine.py line 36. -/
def sentinel_story : String := "原故完整事已達標"

/-- The parser's content-marker choice (cot_engine.py lines 18-20):
the plan marker if it occurs anywhere in the raw output, else the
full-story marker. -/
def content_marker_of (raw : String) : String :=
  if pyContains raw plan_marker then plan_marker else story_marker

/-- The feedback string computed at cot_engine.py lines 25-32 (before the
sentinel handling): text after the feedback marker, cut at the content
marker when that is present, stripped; `""` when the feedback marker is
absent. -/
def extracted_feedback (raw : String) : String :=
  let fs := pyFind raw feedback_marker
  let cs := pyFind raw (content_marker_of raw)
  if fs ≠ -1 then
    if cs ≠ -1 then
      pyStrip (pySlice raw (fs.toNat + feedback_marker.length) cs.toNat)
    else
      pyStrip (pyDrop raw (fs.toNat + feedback_marker.length))
  else ""

/-- The stripped candidate after the chosen content marker
(cot_engine.py line 35). -/
def parsed_candidate (raw : String) : String :=
  pyStrip (pyDrop raw ((pyFind raw (content_marker_of raw)).toNat + (content_marker_of raw).length))

/-- `ReviewerOutput` (cot_engine.py lines 11-13). -/
structure ReviewerOutput where
  feedback : String
  revised_content : String
  deriving DecidableEq, Repr

/-- `_parse_reviewer_output` (cot_engine.py lines 15-53), written as a total
function: the Python body uses only `find`, slicing, `strip` and
`startswith`, none of which can raise. -/
def _parse_reviewer_output (raw_output original_content_if_no_revision : String) : ReviewerOutput :=
  if pyFind raw_output (content_marker_of raw_output) ≠ -1 then
    if parsed_candidate raw_output ≠ "" ∧
        pyStarts (parsed_candidate raw_output) sentinel_plan = false ∧
        pyStarts (parsed_candidate raw_output) sentinel_story = false then
      ⟨extracted_feedback raw_output, parsed_candidate raw_output⟩
    else if pyStarts (parsed_candidate raw_output) sentinel_plan = true ∨
        pyStarts (parsed_candidate raw_output) sentinel_story = true then
      ⟨if extracted_feedback raw_output = "" then "審閱者認為內容已達標，無需修訂。"
        else extracted_feedback raw_output,
       original_content_if_no_revision⟩
    else
      ⟨extracted_feedback raw_output, original_content_if_no_revision⟩
  else if pyFind raw_output feedback_marker = -1 then
    if pyStrip raw_output ≠ "" then
      ⟨"審閱者未提供明確回饋標記，但提供了內容。", pyStrip raw_output⟩
    else
      ⟨"審閱者輸出格式不正確或為空。", original_content_if_no_revision⟩
  else
    ⟨extracted_feedback raw_output, original_content_if_no_revision⟩

/-! ## Prompt templates (src/core/prompt_templates.py), `format_prompt` unfolded

`format_prompt(TEMPLATE, **kwargs)` is `TEMPLATE.format(**kwargs)` on a fixed
string literal; each function below is that literal with its placeholders
substituted, written as a concatenation. -/

/-- `format_prompt(STORY_PLANNING_PROMPT_TEMPLATE, ...)`
(prompt_templates.py lines 17-45; the template opens with a newline). -/
def plan_prompt (theme genre pokemon_names synopsis include_abilities : String) : String :=
  "\n<s>[INST] You are a master storyteller specializing in the world of Pokémon. \nYour task is to create a significant and coherent plan or outline for a short Pokémon story based on the user's inputs.\nWhen creating the plan, please use **Traditional Chinese (繁體中文)**, and ensure the language style and vocabulary are as close as possible to **common usage in Taiwan (台灣常用風格)** for all parts of the plan.\nMake sure the plan aligns with the specified **Story Genre: " ++ genre ++ "**.\nIf the user wants to include Pokémon abilities (see 'Include Pokémon Abilities' below), ensure the plan allows for moments where these can be showcased effectively.\n\nUser Inputs:\n- Story Theme: " ++ theme ++ "\n- Story Genre: " ++ genre ++ "\n- Pokémon Involved: " ++ pokemon_names ++ "\n- Story Synopsis/Idea: " ++ synopsis ++ "\n- Include Pokémon Abilities: " ++ include_abilities ++ "\n\nPlease generate a structured story plan. Instead of many small points, aim for **3 to 5 major sections or stages** that represent significant parts of the story's progression. For example:\n\n*   **Setup / Beginning:** Introduce the main characters, the initial setting, and the ordinary world before the main conflict begins.\n*   **Confrontation / Rising Action:** Describe the main conflict or problem, the challenges faced, and how the stakes are raised. This section might cover several key events that build tension.\n*   **Climax / Turning Point:** The most intense part of the story where the conflict reaches its peak.\n*   **Resolution / Aftermath:** How the conflict is resolved, and what happens to the characters afterward. Show the new normal.\n\nFeel free to adapt these section names or structures if the story's flow suggests a different natural division (e.g., a mystery might have \"The Discovery\", \"The Investigation\", \"The Revelation\").\n**Each section in your plan should summarize a substantial portion of the story, not just a single event.**\n\nEnsure the plan is coherent, creative, and stays true to the Pokémon world's spirit (e.g., themes of friendship, adventure, training, discovery).\nThe plan should be detailed enough to guide the writing of a ~1000-1500 word short story, with each planned section being substantial enough to be expanded into several paragraphs or pages of text.\nFocus on making the story engaging and incorporating the specified Pokémon naturally into the narrative.\n\nOutput the story plan ONLY. Do not write the full story yet. [/INST] Story Plan:"

/-- `format_prompt(STORY_GENERATION_FROM_PLAN_PROMPT_TEMPLATE, ...)`
(prompt_templates.py lines 47-82; the template opens with a newline). -/
def story_prompt (story_plan theme genre pokemon_names synopsis include_abilities : String) : String :=
  "\n<s>[INST] You are a master storyteller specializing in the world of Pokémon.\nI will provide you with a story plan that was previously generated.\nYour task is to write a complete, engaging, and well-structured short Pokémon story (approximately 1000-1500 words, but feel free to write more if needed to make the story complete and engaging) based on this plan.\nPlease use **Traditional Chinese (繁體中文)**, and ensure the language style, vocabulary, and phrasing are as close as possible to **common usage in Taiwan (台灣常用風格)**.\nThe story should strongly reflect the specified **Story Genre: " ++ genre ++ "**.\n\nStory Plan:\n" ++ story_plan ++ "\n\nUser's Original Inputs (for context, ensure these are reflected in the story):\n- Story Theme: " ++ theme ++ "\n- Story Genre: " ++ genre ++ "\n- Pokémon Involved: " ++ pokemon_names ++ "\n- Story Synopsis/Idea: " ++ synopsis ++ "\n- Include Pokémon Abilities: " ++ include_abilities ++ "\n\nWriting Guidelines:\n-   **Language Style**: Crucially, the story **must be written in Traditional Chinese (繁體中文) and adhere to common Taiwanese phrasing and vocabulary (台灣常用風格)**.\n-   **Genre Adherence**: The story must align with the specified **Story Genre: " ++ genre ++ "**. For example, if the genre is \"Comedy\", ensure there are humorous elements. If \"Sci-Fi\", incorporate futuristic or technological aspects.\n-   **Detailed Expansion of Each Plan Point**: For EACH section in the provided Story Plan (e.g., Introduction, Inciting Incident, Rising Action, Climax, Falling Action, Resolution), you MUST **elaborate significantly**. This means:\n    *   **Descriptive Language**: Use vivid descriptions for settings, characters' appearances, emotions, and actions.\n    *   **Show, Don't Tell**: Instead of stating facts, describe scenes and interactions that reveal those facts.\n    *   **Character Thoughts and Dialogue**: Include inner monologues for main characters (Pokémon or human) and meaningful dialogue between characters to advance the plot and reveal personality. If Pokémon cannot speak human language, describe their expressions, sounds, and actions to convey their feelings and intentions.\n    *   **Sensory Details**: Engage multiple senses (sight, sound, smell, touch, taste where appropriate) to make the scenes more immersive.\n    *   **Pacing within Sections**: Ensure each expanded section has a good flow and contributes to the overall narrative arc.\n-   **Pokémon Abilities Integration (If 'Include Pokémon Abilities' is Yes)**: If the user requested it, naturally weave the known abilities, characteristics, or unique traits of the involved Pokémon into the narrative. For example, if Pikachu is involved and its ability is Static, an opponent might get paralyzed upon contact. If a Pokémon is known for its speed, describe its fast movements vividly. Show, don't just tell, these abilities in action.\n-   **Narrative Style:** Write in a clear, descriptive, and engaging narrative style suitable for a Pokémon adventure story, adapted to the specified genre.\n-   **Characterization:** Briefly bring the Pokémon and any human characters (if implied or can be inferred) to life with their actions and dialogue (if any).\n-   **Pokémon Elements:** Naturally integrate Pokémon abilities, battles (if appropriate for the plan), and the general atmosphere of the Pokémon world.\n-   **Pacing:** Ensure the story flows well from one part of the plan to the next, and that the overall story feels substantial.\n-   **Word Count and Depth**: Aim for a story length of approximately **1000-1500 words, or even longer if necessary to fully develop the plot points from the plan**. The goal is a rich, detailed narrative, not just a summary. Do not rush the story; take the space needed to tell it well.\n-   **Completeness:** The story should have a clear beginning, middle, and end, following the provided plan and expanding upon it.\n-   **Tone:** Maintain a tone consistent with the user's theme and the general positive spirit of Pokémon, unless the theme explicitly suggests otherwise (e.g., a mystery story might have a more suspenseful tone).\n\nWrite the full story now. Output ONLY the story. Do not include any other commentary. [/INST] Pokémon Story:"

/-- `format_prompt(STORY_PLAN_REVIEW_REVISE_PROMPT_TEMPLATE, ...)`
(prompt_templates.py lines 140-179; the template opens without a newline and
ends with one). -/
def plan_review_prompt (theme genre pokemon_names synopsis include_abilities story_plan_to_review : String) : String :=
  "<s>[INST] You are an expert Pokémon Story Plan Editor.\nYour task is to review a generated story plan based on the user's original request and specific criteria.\nIf the plan is already excellent, state that. If it needs improvement, provide constructive feedback and a revised, improved version of the story plan.\nPlease use **Traditional Chinese (繁體中文)** with a **Taiwanese common phrasing and vocabulary (台灣常用風格)** for all outputs.\n\nUser's Original Inputs:\n- Story Theme: " ++ theme ++ "\n- Story Genre: " ++ genre ++ "\n- Pokémon Involved: " ++ pokemon_names ++ "\n- Story Synopsis/Idea: " ++ synopsis ++ "\n- Include Pokémon Abilities: " ++ include_abilities ++ "\n\nGenerated Story Plan to Review:\n" ++ story_plan_to_review ++ "\n\nReview Criteria:\n1.  **Coherence and Logic**: Is the plan internally consistent and logical? Do the parts flow well?\n2.  **Alignment with User Inputs**: Does the plan accurately reflect the user's theme, genre, Pokémon, and synopsis?\n3.  **Pokémon Spirit**: Does the plan capture the essence of the Pokémon world (friendship, adventure, discovery, etc.)? Are Pokémon integrated naturally?\n4.  **Creativity and Engagement**: Is the plan original and interesting? Does it promise an engaging story?\n5.  **Structure and Detail**: Is the plan well-structured (e.g., 3-5 major sections)? Is there enough detail in each section to guide the writing of a ~1000-1500 word story?\n6.  **Genre Appropriateness**: Does the plan fit the specified Story Genre: " ++ genre ++ "?\n7.  **Ability Integration (if applicable)**: If 'Include Pokémon Abilities' is Yes, does the plan create opportunities to showcase them?\n\nOutput Format:\nProvide your response in two parts:\n1.  **評估回饋:** Start with this exact phrase. Briefly summarize your findings (1-3 sentences).\n2.  **修訂後故事大綱:** Start with this exact phrase. Provide the full, revised story plan. If no revisions were necessary and the original plan is excellent, you can simply re-state the original plan here or state \"原故事大綱已達標，無需修訂。\".\n\nExample of a good output structure:\n評估回饋: 此計畫在創意方面表現出色，但第二部分的邏輯稍有欠缺，且未充分利用 " ++ pokemon_names ++ " 的特性。\n修訂後故事大綱:\n*   第一部分：[修訂後的第一部分內容]\n*   第二部分：[修訂後的第二部分內容，解決了邏輯問題並加入特性展現]\n*   ... (依此類推)\n\nNow, review the provided story plan.\n[/INST]\n"

/-- `format_prompt(FULL_STORY_REVIEW_REVISE_PROMPT_TEMPLATE, ...)`
(prompt_templates.py lines 181-223; the template opens without a newline and
ends with one). -/
def full_story_review_prompt (theme genre pokemon_names synopsis include_abilities story_plan full_story_to_review : String) : String :=
  "<s>[INST] You are a meticulous Pokémon Story Editor.\nYour task is to review a generated full story based on the user's original request, the guiding story plan, and specific quality criteria.\nIf the story is already excellent, state that. If it needs improvement, provide constructive feedback and a revised, improved version of the story.\nPlease use **Traditional Chinese (繁體中文)** with a **Taiwanese common phrasing and vocabulary (台灣常用風格)** for all outputs.\n\nUser's Original Inputs:\n- Story Theme: " ++ theme ++ "\n- Story Genre: " ++ genre ++ "\n- Pokémon Involved: " ++ pokemon_names ++ "\n- Story Synopsis/Idea: " ++ synopsis ++ "\n- Include Pokémon Abilities: " ++ include_abilities ++ "\n\nGuiding Story Plan:\n" ++ story_plan ++ "\n\nGenerated Full Story to Review:\n" ++ full_story_to_review ++ "\n\nReview Criteria:\n1.  **Adherence to Plan**: Does the story faithfully follow and expand upon the provided Guiding Story Plan?\n2.  **Engagement and Pacing**: Is the story captivating? Is the pacing appropriate for the genre and length?\n3.  **Language and Style**: Is the story written in fluent Traditional Chinese (Taiwanese style)? Is the descriptive language vivid? Is it \"showing\" more than \"telling\"?\n4.  **Genre Consistency**: Does the story strongly reflect the specified Story Genre: " ++ genre ++ "?\n5.  **Characterization**: Are Pokémon (and any human characters) portrayed effectively through their actions, thoughts, and dialogue?\n6.  **Pokémon Integration**: Are Pokémon abilities, traits, and the world's atmosphere naturally and correctly integrated? (Refer to " ++ pokemon_names ++ " and " ++ include_abilities ++ ")\n7.  **Coherence and Clarity**: Is the narrative clear, logical, and easy to follow?\n8.  **Completeness and Word Count**: Does the story feel complete (beginning, middle, end)? Is it roughly in the 1000-1500 word range or appropriately longer if needed?\n9.  **Emotional Impact (if applicable)**: Does the story evoke the intended emotions based on its theme and genre?\n\nOutput Format:\nProvide your response in two parts:\n1.  **評估回饋:** Start with this exact phrase. Briefly summarize your findings (1-3 sentences).\n2.  **修訂後完整故事:** Start with this exact phrase. Provide the full, revised story. If no revisions were necessary and the original story is excellent, you can simply re-state the original story here or state \"原故完整事已達標，無需修訂。\".\n\nExample of a good output structure:\n評估回饋: 故事整體流暢，但高潮部分略顯倉促，皮卡丘的勇敢可以再多加著墨。\n修訂後完整故事:\n[修訂後的完整故事內容，高潮部分已加強...]\n\nNow, review the provided full story.\n[/INST]\n"

/-! ## Name formatter (src/core/pokemon_knowledge_base.py lines 21-30) -/

/-- Lookup abstraction for `_pokemon_dict`: the CSV file `data/pokemon_data.csv`
backing it is not part of the source tree, so the table is a parameter; a hit
yields the row's `zh_name` and `en_name` fields (the dict is keyed by
`zh_name`, so the returned `zh_name` equals the key). -/
def PokemonTable := String → Option (String × String)

/-- `format_pokemon_names_for_prompt(user_input)`: split on commas, strip,
drop empties, replace known names by `"zh_name (en_name)"`, rejoin with
`", "`. -/
def format_pokemon_names_for_prompt (table : PokemonTable) (user_input : String) : String :=
  let names := ((user_input.splitOn ",").map pyStrip).filter (fun n => n != "")
  let formatted := names.map (fun name =>
    match table name with
    | some (zh, en) => zh ++ " (" ++ en ++ ")"
    | none => name)
  String.intercalate ", " formatted

/-! ## Orchestration engine (src/core/cot_engine.py), run against a fake client

Each two-phase operation makes at most two `generate_text` calls; the fake
completion client returns `r1` for the first call and `r2` for the second.
Every run returns the list of prompts sent, in order, together with the
outcome.  A `StoryGenerationError` raised inside a helper's `try:` block is
caught by that helper's own `except Exception` clause and re-wrapped with the
stage prefix (cot_engine.py lines 104-117, 225-235), which the messages below
reproduce. -/

/-- `StoryGenerationError` (cot_engine.py lines 7-9). -/
structure StoryGenerationError where
  message : String
  deriving DecidableEq, Repr

instance {ε α : Type} [DecidableEq ε] [DecidableEq α] : DecidableEq (Except ε α) := fun a b =>
  match a, b with
  | .ok x, .ok y =>
    if h : x = y then isTrue (by rw [h]) else isFalse (fun hc => h (Except.ok.inj hc))
  | .error x, .error y =>
    if h : x = y then isTrue (by rw [h]) else isFalse (fun hc => h (Except.error.inj hc))
  | .ok _, .error _ => isFalse (fun hc => Except.noConfusion hc)
  | .error _, .ok _ => isFalse (fun hc => Except.noConfusion hc)

/-- `CoTEngine.generate_story_plan` (cot_engine.py lines 163-189):
initial plan generation (lines 92-108), empty-output check, then the
review/revise pass (lines 140-155); returns `revised_content` only. -/
def run_generate_story_plan (table : PokemonTable) (r1 r2 : String)
    (theme genre pokemon_names synopsis : String) (include_abilities : Bool) :
    List String × Except StoryGenerationError String :=
  let formatted := format_pokemon_names_for_prompt table pokemon_names
  let inc := if include_abilities then "Yes" else "No"
  let p1 := plan_prompt theme genre formatted synopsis inc
  if r1 = "" ∨ pyStrip r1 = "" then
    ([p1], .error ⟨"Unexpected error during initial story plan generation: LLM failed to generate an initial story plan. The response was empty."⟩)
  else
    let p2 := plan_review_prompt theme genre formatted synopsis inc r1
    if r2 = "" ∨ pyStrip r2 = "" then
      ([p1, p2], .error ⟨"Unexpected error during story plan review: Reviewer LLM failed to provide feedback/revision for the story plan."⟩)
    else
      ([p1, p2], .ok (_parse_reviewer_output r2 r1).revised_content)

/-- `CoTEngine.generate_story_from_plan` (cot_engine.py lines 282-312):
initial full-story generation (lines 191-235), empty-output check, then the
full-story review/revise pass (lines 237-280). -/
def run_generate_story_from_plan (table : PokemonTable) (r1 r2 : String)
    (theme genre pokemon_names synopsis story_plan : String) (include_abilities : Bool) :
    List String × Except StoryGenerationError String :=
  let formatted := format_pokemon_names_for_prompt table pokemon_names
  let inc := if include_abilities then "Yes" else "No"
  let p1 := story_prompt story_plan theme genre formatted synopsis inc
  if r1 = "" ∨ pyStrip r1 = "" then
    ([p1], .error ⟨"Unexpected error during initial full story generation: LLM failed to generate the initial full story. The response was empty."⟩)
  else
    let p2 := full_story_review_prompt theme genre formatted synopsis inc story_plan r1
    if r2 = "" ∨ pyStrip r2 = "" then
      ([p1, p2], .error ⟨"Unexpected error during full story review: Reviewer LLM failed to provide feedback/revision for the full story."⟩)
    else
      ([p1, p2], .ok (_parse_reviewer_output r2 r1).revised_content)

/-- `CoTEngine.generate_complete_story` (cot_engine.py lines 314-346):
`_generate_story_plan_initial` then `_generate_story_from_plan_initial`,
no review pass, returning the pair of raw outputs. -/
def run_generate_complete_story (table : PokemonTable) (r1 r2 : String)
    (theme genre pokemon_names synopsis : String) (include_abilities : Bool) :
    List String × Except StoryGenerationError (String × String) :=
  let formatted := format_pokemon_names_for_prompt table pokemon_names
  let inc := if include_abilities then "Yes" else "No"
  let p1 := plan_prompt theme genre formatted synopsis inc
  if r1 = "" ∨ pyStrip r1 = "" then
    ([p1], .error ⟨"Unexpected error during initial story plan generation: LLM failed to generate an initial story plan. The response was empty."⟩)
  else
    let p2 := story_prompt r1 theme genre formatted synopsis inc
    if r2 = "" ∨ pyStrip r2 = "" then
      ([p1, p2], .error ⟨"Unexpected error during initial full story generation: LLM failed to generate the initial full story. The response was empty."⟩)
    else
      ([p1, p2], .ok (r1, r2))

/-! ## Completion client construction (src/core/llm_services.py lines 18-37) -/

/-- `OpenAIConfigError` (llm_services.py lines 7-9). -/
structure OpenAIConfigError where
  message : String
  deriving DecidableEq, Repr

/-- `config.settings.Settings` (src/config/settings.py): `OPENAI_API_KEY` is
`os.getenv("OPENAI_API_KEY")`, `None` when the variable is absent. -/
structure Settings where
  OPENAI_API_KEY : Option String

/-- The state of a constructed `LLMService` (the wrapped `OpenAI` client
holds the resolved key; `model_name` is stored as given). -/
structure LLMService where
  api_key : String
  model_name : String
  deriving DecidableEq, Repr

/-- `LLMService.__init__` (llm_services.py lines 18-37).  Python's
`if not resolved_api_key` is true exactly when the resolved key is `None`
or the empty string; in that case the constructor raises
`OpenAIConfigError` before any generate call can exist. -/
def LLMService.init (stg : Settings) (api_key : Option String) (model_name : String) :
    Except OpenAIConfigError LLMService :=
  let resolved_api_key := match api_key with
    | some k => some k
    | none => stg.OPENAI_API_KEY
  match resolved_api_key with
  | none =>
    .error ⟨"OpenAI API key not provided and not found in environment settings. Please set OPENAI_API_KEY in your .env file or pass it directly."⟩
  | some k =>
    if k = "" then
      .error ⟨"OpenAI API key not provided and not found in environment settings. Please set OPENAI_API_KEY in your .env file or pass it directly."⟩
    else
      .ok ⟨k, model_name⟩

example : pyStrip "  a\n" = "a" := by decide

example : pyFind "abcab" "ca" = 2 := by decide

example : pyFind "abc" "x" = -1 := by decide

example : pyStarts "abc" "ab" = true := by decide

example : pySlice "abcdef" 2 4 = "cd" := by decide

example : _parse_reviewer_output "評估回饋:好\n修訂後故事大綱:NEW" "OLD" = ⟨"好", "NEW"⟩ := by decide

example : _parse_reviewer_output "" "OLD" = ⟨"審閱者輸出格式不正確或為空。", "OLD"⟩ := by decide

example : (("a" ++ "b" ++ "c" : String) = ("a" ++ ("b" ++ "c") : String)) := by simp [String.append_assoc]

example (x s : String) : x ++ s = x ++ (s ++ "") := by simp

/-! ## Helper lemmas -/

theorem pyFind_eq_neg_one_of_not_contains {s sub : String} (h : pyContains s sub = false) :
    pyFind s sub = -1 := by
  unfold pyContains at h
  unfold pyFind
  cases hc : charsFind s.toList sub.toList <;> simp_all

theorem pyFind_ne_neg_one_of_contains {s sub : String} (h : pyContains s sub = true) :
    pyFind s sub ≠ -1 := by
  unfold pyContains at h
  unfold pyFind
  cases hc : charsFind s.toList sub.toList with
  | none => simp_all
  | some n => show (n : Int) ≠ -1; omega

theorem containsSub_append_right {h s : String} (t : String) (hc : containsSub h s) :
    containsSub (h ++ t) s := by
  obtain ⟨l, r, rfl⟩ := hc
  exact ⟨l, r ++ t, by simp [String.append_assoc]⟩

theorem containsSub_append_self (l s : String) : containsSub (l ++ s) s :=
  ⟨l, "", by simp⟩

theorem plan_prompt_contains_synopsis (theme genre pokemon_names synopsis include_abilities : String) :
    containsSub (plan_prompt theme genre pokemon_names synopsis include_abilities) synopsis := by
  unfold plan_prompt
  exact containsSub_append_right _ (containsSub_append_right _ (containsSub_append_right _
    (containsSub_append_self _ _)))

theorem plan_review_prompt_contains_plan
    (theme genre pokemon_names synopsis include_abilities story_plan_to_review : String) :
    containsSub (plan_review_prompt theme genre pokemon_names synopsis include_abilities
      story_plan_to_review) story_plan_to_review := by
  unfold plan_review_prompt
  exact containsSub_append_right _ (containsSub_append_right _ (containsSub_append_right _
    (containsSub_append_right _ (containsSub_append_right _ (containsSub_append_self _ _)))))

/-! ## Claim theorems -/

/-- C1: for every raw text and fallback, `_parse_reviewer_output` is a total
function (the embedding of "never raises — always returns a `ReviewerOutput`"),
and its `revised_content` is never empty when the fallback is non-empty. -/
theorem parser_safety (raw fb : String) (h : fb ≠ "") :
    (_parse_reviewer_output raw fb).revised_content ≠ "" := by
  unfold _parse_reviewer_output
  repeat' split
  all_goals simp_all

/-- Witness for C1 at `raw = ""`, `fb = "y"`. -/
theorem parser_safety_witness :
    ("y" : String) ≠ "" ∧ (_parse_reviewer_output "" "y").revised_content ≠ "" :=
  ⟨by decide, parser_safety "" "y" (by decide)⟩

/-- C2: whenever the chosen revised-content marker occurs in the raw text and
the stripped candidate after it begins with either sentinel phrase
(`原故事大綱已達標` or `原故完整事已達標`), `revised_content` equals the
fallback regardless of what follows the sentinel, and if no feedback was
extracted the feedback is the canned "already satisfactory" message. -/
theorem sentinel_fallback (raw fb : String)
    (hm : pyFind raw (content_marker_of raw) ≠ -1)
    (hs : pyStarts (parsed_candidate raw) sentinel_plan = true ∨
          pyStarts (parsed_candidate raw) sentinel_story = true) :
    (_parse_reviewer_output raw fb).revised_content = fb ∧
    (extracted_feedback raw = "" →
      (_parse_reviewer_output raw fb).feedback = "審閱者認為內容已達標，無需修訂。") := by
  unfold _parse_reviewer_output
  have h1 : ¬(parsed_candidate raw ≠ "" ∧
      pyStarts (parsed_candidate raw) sentinel_plan = false ∧
      pyStarts (parsed_candidate raw) sentinel_story = false) := by
    rcases hs with h | h <;> simp [h]
  rw [if_pos hm, if_neg h1, if_pos hs]
  exact ⟨rfl, fun hf => by simp [hf]⟩

/-- Witness for C2: sentinel directly after the plan marker, arbitrary tail. -/
theorem sentinel_fallback_witness :
    (_parse_reviewer_output "修訂後故事大綱:原故事大綱已達標，可以直接使用。" "PLAN0").revised_content
      = "PLAN0" ∧
    (extracted_feedback "修訂後故事大綱:原故事大綱已達標，可以直接使用。" = "" →
      (_parse_reviewer_output "修訂後故事大綱:原故事大綱已達標，可以直接使用。" "PLAN0").feedback
        = "審閱者認為內容已達標，無需修訂。") :=
  sentinel_fallback "修訂後故事大綱:原故事大綱已達標，可以直接使用。" "PLAN0" (by decide) (by decide)

/-- C10: when the chosen revised-content marker is present but followed only by
whitespace (empty stripped candidate), `revised_content` falls back to the
original content, and if additionally the feedback marker is absent the
feedback field stays the empty string (no placeholder is substituted). -/
theorem empty_candidate_fallback (raw fb : String)
    (h1 : pyFind raw (content_marker_of raw) ≠ -1)
    (h2 : parsed_candidate raw = "") :
    (_parse_reviewer_output raw fb).revised_content = fb ∧
    (pyFind raw feedback_marker = -1 → _parse_reviewer_output raw fb = ⟨"", fb⟩) := by
  have hsent : ¬(pyStarts (parsed_candidate raw) sentinel_plan = true ∨
      pyStarts (parsed_candidate raw) sentinel_story = true) := by
    rw [h2]; decide
  have hcond : ¬(parsed_candidate raw ≠ "" ∧
      pyStarts (parsed_candidate raw) sentinel_plan = false ∧
      pyStarts (parsed_candidate raw) sentinel_story = false) := by
    simp [h2]
  unfold _parse_reviewer_output
  rw [if_pos h1, if_neg hcond, if_neg hsent]
  refine ⟨rfl, fun h3 => ?_⟩
  have hef : extracted_feedback raw = "" := by
    simp [extracted_feedback, h3]
  rw [hef]

/-- Witness for C10: plan marker followed only by whitespace, no feedback marker. -/
theorem empty_candidate_fallback_witness :
    (_parse_reviewer_output "修訂後故事大綱:  \n " "X").revised_content = "X" ∧
    (pyFind "修訂後故事大綱:  \n " feedback_marker = -1 →
      _parse_reviewer_output "修訂後故事大綱:  \n " "X" = ⟨"", "X"⟩) :=
  empty_candidate_fallback "修訂後故事大綱:  \n " "X" (by decide) (by decide)

/-- C3 counterexample: in the spec's scenario the second reply writes both
marker labels with full-width colons (：).  The parser's marker literals use
half-width colons, so neither marker is found and the whole reply (not "P2")
is returned by `generate_story_plan`. -/
theorem scenario_fullwidth_colon_counterexample :
    (run_generate_story_plan (fun _ => none) "P" "評估回饋：N/A\n修訂後故事大綱：P2"
        "An unexpected friendship" "Adventure" "Pikachu, Eevee"
        "A Pikachu and an Eevee become friends." true).2 =
      .ok "評估回饋：N/A\n修訂後故事大綱：P2" ∧
    (run_generate_story_plan (fun _ => none) "P" "評估回饋：N/A\n修訂後故事大綱：P2"
        "An unexpected friendship" "Adventure" "Pikachu, Eevee"
        "A Pikachu and an Eevee become friends." true).2 ≠ .ok "P2" := by
  refine ⟨by decide, by decide⟩

/-- C3 amended: with the marker labels written with half-width colons (the
spelling the parser recognizes), the scenario's `generate_story_plan` run
returns exactly "P2". -/
theorem scenario_halfwidth_colon_plan :
    (run_generate_story_plan (fun _ => none) "P" "評估回饋:N/A\n修訂後故事大綱:P2"
        "An unexpected friendship" "Adventure" "Pikachu, Eevee"
        "A Pikachu and an Eevee become friends." true).2 = .ok "P2" := by
  decide

/-- C4 counterexample: non-empty raw text with neither marker that contains
the "already up to standard / no revision needed" wording.  The code performs
no such substring check in this branch: it returns the trimmed raw text as
`revised_content` (not the fallback) with the "no explicit marker" feedback. -/
theorem no_marker_sentinel_counterexample :
    (_parse_reviewer_output "原故事大綱已達標，無需修訂。" "FALLBACK").revised_content =
      "原故事大綱已達標，無需修訂。" ∧
    (_parse_reviewer_output "原故事大綱已達標，無需修訂。" "FALLBACK").revised_content ≠ "FALLBACK" ∧
    (_parse_reviewer_output "原故事大綱已達標，無需修訂。" "FALLBACK").feedback =
      "審閱者未提供明確回饋標記，但提供了內容。" := by
  refine ⟨by decide, by decide, by decide⟩

/-- C4 amended: for every non-empty raw text containing neither the feedback
marker nor either revised-content marker, the parser unconditionally returns
the "reviewer gave no explicit feedback marker but provided content" feedback
and the trimmed raw text as `revised_content`; no "already satisfactory"
substring check is performed in this branch. -/
theorem no_marker_branch (raw fb : String)
    (h1 : pyContains raw plan_marker = false)
    (h2 : pyContains raw story_marker = false)
    (h3 : pyFind raw feedback_marker = -1)
    (h4 : pyStrip raw ≠ "") :
    _parse_reviewer_output raw fb =
      ⟨"審閱者未提供明確回饋標記，但提供了內容。", pyStrip raw⟩ := by
  have hcm : content_marker_of raw = story_marker := by
    unfold content_marker_of
    rw [if_neg (by simp [h1])]
  have hcf : pyFind raw (content_marker_of raw) = -1 := by
    rw [hcm]
    exact pyFind_eq_neg_one_of_not_contains h2
  unfold _parse_reviewer_output
  rw [if_neg (by simp [hcf]), if_pos h3, if_pos h4]

/-- Witness for C4 amended, at the spec's own unstructured-reply scenario text. -/
theorem no_marker_branch_witness :
    _parse_reviewer_output "Just a rewritten plan, no markers." "P" =
      ⟨"審閱者未提供明確回饋標記，但提供了內容。", "Just a rewritten plan, no markers."⟩ :=
  no_marker_branch "Just a rewritten plan, no markers." "P"
    (by decide) (by decide) (by decide) (by decide)

/-- C5 counterexample: raw text in which the full-story marker occurs at
offset 0 and the plan marker only later.  The claim's left-to-right rule would
split at the earlier full-story marker, but the code prefers the plan marker:
`revised_content` is "BBB", not the text after the first marker. -/
theorem marker_position_counterexample :
    pyFind "修訂後完整故事:AAA修訂後故事大綱:BBB" story_marker = 0 ∧
    pyFind "修訂後完整故事:AAA修訂後故事大綱:BBB" plan_marker = 11 ∧
    (_parse_reviewer_output "修訂後完整故事:AAA修訂後故事大綱:BBB" "F").revised_content = "BBB" ∧
    (_parse_reviewer_output "修訂後完整故事:AAA修訂後故事大綱:BBB" "F").revised_content ≠
      pyStrip (pyDrop "修訂後完整故事:AAA修訂後故事大綱:BBB" story_marker.length) := by
  refine ⟨by decide, by decide, by decide, by decide⟩

/-- C5 amended: when the plan marker `修訂後故事大綱:` occurs anywhere in the
raw text it is the chosen content marker — regardless of whether the
full-story marker occurs earlier — and (outside the sentinel/empty cases)
`revised_content` is the trimmed text after the plan marker's first
occurrence. -/
theorem plan_marker_priority (raw fb : String)
    (h1 : pyContains raw plan_marker = true)
    (h2 : parsed_candidate raw ≠ "")
    (h3 : pyStarts (parsed_candidate raw) sentinel_plan = false)
    (h4 : pyStarts (parsed_candidate raw) sentinel_story = false) :
    content_marker_of raw = plan_marker ∧
    (_parse_reviewer_output raw fb).revised_content =
      pyStrip (pyDrop raw ((pyFind raw plan_marker).toNat + plan_marker.length)) := by
  have hcm : content_marker_of raw = plan_marker := by
    unfold content_marker_of
    rw [if_pos h1]
  refine ⟨hcm, ?_⟩
  unfold _parse_reviewer_output
  rw [if_pos (by rw [hcm]; exact pyFind_ne_neg_one_of_contains h1), if_pos ⟨h2, h3, h4⟩]
  show parsed_candidate raw = _
  unfold parsed_candidate
  rw [hcm]

/-- Witness for C5 amended, at the both-marker input with the full-story
marker first. -/
theorem plan_marker_priority_witness :
    content_marker_of "修訂後完整故事:AAA修訂後故事大綱:BBB" = plan_marker ∧
    (_parse_reviewer_output "修訂後完整故事:AAA修訂後故事大綱:BBB" "F").revised_content =
      pyStrip (pyDrop "修訂後完整故事:AAA修訂後故事大綱:BBB"
        ((pyFind "修訂後完整故事:AAA修訂後故事大綱:BBB" plan_marker).toNat + plan_marker.length)) :=
  plan_marker_priority "修訂後完整故事:AAA修訂後故事大綱:BBB" "F"
    (by decide) (by decide) (by decide) (by decide)

/-- C6: with a fake client whose two replies are non-empty, a
`generate_story_plan` run sends exactly two prompts, in order: first the
planning prompt, which contains the raw synopsis as a substring, then the
plan-review prompt, which contains the first call's entire output substituted
at the `story_plan_to_review` placeholder.  The second prompt is built from
the first call's reply, so in the sequential model the second call cannot
start before the first completes. -/
theorem pipeline_ordering (table : PokemonTable)
    (r1 r2 theme genre pokemon_names synopsis : String) (inc : Bool)
    (h1 : ¬(r1 = "" ∨ pyStrip r1 = "")) (h2 : ¬(r2 = "" ∨ pyStrip r2 = "")) :
    (run_generate_story_plan table r1 r2 theme genre pokemon_names synopsis inc).1 =
      [plan_prompt theme genre (format_pokemon_names_for_prompt table pokemon_names) synopsis
         (if inc then "Yes" else "No"),
       plan_review_prompt theme genre (format_pokemon_names_for_prompt table pokemon_names) synopsis
         (if inc then "Yes" else "No") r1] ∧
    containsSub (plan_prompt theme genre (format_pokemon_names_for_prompt table pokemon_names)
      synopsis (if inc then "Yes" else "No")) synopsis ∧
    containsSub (plan_review_prompt theme genre (format_pokemon_names_for_prompt table pokemon_names)
      synopsis (if inc then "Yes" else "No") r1) r1 := by
  refine ⟨?_, plan_prompt_contains_synopsis _ _ _ _ _, plan_review_prompt_contains_plan _ _ _ _ _ _⟩
  simp only [run_generate_story_plan, if_neg h1, if_neg h2]

/-- Witness for C6 at concrete inputs. -/
theorem pipeline_ordering_witness :
    (run_generate_story_plan (fun _ => none) "PLAN1" "REV1" "t" "g" "pn" "syn" true).1 =
      [plan_prompt "t" "g" (format_pokemon_names_for_prompt (fun _ => none) "pn") "syn"
         (if true then "Yes" else "No"),
       plan_review_prompt "t" "g" (format_pokemon_names_for_prompt (fun _ => none) "pn") "syn"
         (if true then "Yes" else "No") "PLAN1"] ∧
    containsSub (plan_prompt "t" "g" (format_pokemon_names_for_prompt (fun _ => none) "pn") "syn"
      (if true then "Yes" else "No")) "syn" ∧
    containsSub (plan_review_prompt "t" "g" (format_pokemon_names_for_prompt (fun _ => none) "pn")
      "syn" (if true then "Yes" else "No") "PLAN1") "PLAN1" :=
  pipeline_ordering (fun _ => none) "PLAN1" "REV1" "t" "g" "pn" "syn" true (by decide) (by decide)

/-- C7: if the client's first reply is empty or whitespace-only, both
`generate_story_plan` and `generate_story_from_plan` stop after exactly one
call (no review call is attempted) and raise `StoryGenerationError` (here: the
run's outcome is the error — no artifact is returned; the message carries the
stage's re-wrapping prefix). -/
theorem empty_first_output_fail_fast (table : PokemonTable)
    (r1 r2 theme genre pokemon_names synopsis story_plan : String) (inc : Bool)
    (h : pyStrip r1 = "") :
    ((run_generate_story_plan table r1 r2 theme genre pokemon_names synopsis inc).1.length = 1 ∧
     (run_generate_story_plan table r1 r2 theme genre pokemon_names synopsis inc).2 =
       .error ⟨"Unexpected error during initial story plan generation: LLM failed to generate an initial story plan. The response was empty."⟩) ∧
    ((run_generate_story_from_plan table r1 r2 theme genre pokemon_names synopsis story_plan inc).1.length = 1 ∧
     (run_generate_story_from_plan table r1 r2 theme genre pokemon_names synopsis story_plan inc).2 =
       .error ⟨"Unexpected error during initial full story generation: LLM failed to generate the initial full story. The response was empty."⟩) := by
  have h' : r1 = "" ∨ pyStrip r1 = "" := Or.inr h
  simp [run_generate_story_plan, run_generate_story_from_plan, if_pos h']

/-- Witness for C7 at a whitespace-only first reply. -/
theorem empty_first_output_fail_fast_witness :
    ((run_generate_story_plan (fun _ => none) "  " "r2" "t" "g" "pn" "syn" false).1.length = 1 ∧
     (run_generate_story_plan (fun _ => none) "  " "r2" "t" "g" "pn" "syn" false).2 =
       .error ⟨"Unexpected error during initial story plan generation: LLM failed to generate an initial story plan. The response was empty."⟩) ∧
    ((run_generate_story_from_plan (fun _ => none) "  " "r2" "t" "g" "pn" "syn" "sp" false).1.length = 1 ∧
     (run_generate_story_from_plan (fun _ => none) "  " "r2" "t" "g" "pn" "syn" "sp" false).2 =
       .error ⟨"Unexpected error during initial full story generation: LLM failed to generate the initial full story. The response was empty."⟩) :=
  empty_first_output_fail_fast (fun _ => none) "  " "r2" "t" "g" "pn" "syn" "sp" false (by decide)

/-- C8: with non-empty client replies, `generate_complete_story` makes exactly
two calls — the planning prompt, then the story-from-plan prompt built from
the first reply — with no review prompt anywhere, and returns the raw pair
`(r1, r2)` exactly as produced. -/
theorem complete_story_two_calls (table : PokemonTable)
    (r1 r2 theme genre pokemon_names synopsis : String) (inc : Bool)
    (h1 : ¬(r1 = "" ∨ pyStrip r1 = "")) (h2 : ¬(r2 = "" ∨ pyStrip r2 = "")) :
    (run_generate_complete_story table r1 r2 theme genre pokemon_names synopsis inc).1 =
      [plan_prompt theme genre (format_pokemon_names_for_prompt table pokemon_names) synopsis
         (if inc then "Yes" else "No"),
       story_prompt r1 theme genre (format_pokemon_names_for_prompt table pokemon_names) synopsis
         (if inc then "Yes" else "No")] ∧
    (run_generate_complete_story table r1 r2 theme genre pokemon_names synopsis inc).2 =
      .ok (r1, r2) := by
  simp [run_generate_complete_story, if_neg h1, if_neg h2]

/-- Witness for C8 at concrete inputs. -/
theorem complete_story_two_calls_witness :
    (run_generate_complete_story (fun _ => none) "PLANX" "STORYX" "t" "g" "pn" "syn" false).1 =
      [plan_prompt "t" "g" (format_pokemon_names_for_prompt (fun _ => none) "pn") "syn"
         (if false then "Yes" else "No"),
       story_prompt "PLANX" "t" "g" (format_pokemon_names_for_prompt (fun _ => none) "pn") "syn"
         (if false then "Yes" else "No")] ∧
    (run_generate_complete_story (fun _ => none) "PLANX" "STORYX" "t" "g" "pn" "syn" false).2 =
      .ok ("PLANX", "STORYX") :=
  complete_story_two_calls (fun _ => none) "PLANX" "STORYX" "t" "g" "pn" "syn" false
    (by decide) (by decide)

/-- C9: `LLMService.__init__` raises `OpenAIConfigError` at construction time
when no key is passed and none is in the environment settings (so before any
generate call can exist), and succeeds when a non-empty key is available
either as the argument or in the settings. -/
theorem llm_init_credential (stg : Settings) (m k : String) :
    (stg.OPENAI_API_KEY = none → ∃ e, LLMService.init stg none m = .error e) ∧
    (k ≠ "" → LLMService.init stg (some k) m = .ok ⟨k, m⟩) ∧
    (stg.OPENAI_API_KEY = some k → k ≠ "" → LLMService.init stg none m = .ok ⟨k, m⟩) := by
  refine ⟨fun h => ?_, fun hk => ?_, fun h hk => ?_⟩
  · exact ⟨⟨"OpenAI API key not provided and not found in environment settings. Please set OPENAI_API_KEY in your .env file or pass it directly."⟩,
      by simp [LLMService.init, h]⟩
  · simp [LLMService.init, hk]
  · simp [LLMService.init, h, hk]

/-- Witness for C9: missing key fails, argument key succeeds, environment key
succeeds. -/
theorem llm_init_credential_witness :
    (∃ e, LLMService.init ⟨none⟩ none "gpt-4-turbo" = .error e) ∧
    LLMService.init ⟨none⟩ (some "sk-key") "gpt-4-turbo" = .ok ⟨"sk-key", "gpt-4-turbo"⟩ ∧
    LLMService.init ⟨some "sk-env"⟩ none "gpt-4-turbo" = .ok ⟨"sk-env", "gpt-4-turbo"⟩ :=
  ⟨(llm_init_credential ⟨none⟩ "gpt-4-turbo" "x").1 rfl,
   (llm_init_credential ⟨none⟩ "gpt-4-turbo" "sk-key").2.1 (by decide),
   (llm_init_credential ⟨some "sk-env"⟩ "gpt-4-turbo" "sk-env").2.2 rfl (by decide)⟩

end PokemonNovel
